import Mathlib

/-!
Verification development for the FindRivals backend (src/main.py, src/schemas.py).

The two core components are embedded shallowly:
* the Identifier Allocator (`generate_team_id`, src/main.py lines 25-42), with the
  storage count query represented by an `Except Unit Nat` argument (`.error` models
  the `except Exception` path, in which the code falls back to count 0);
* the Proximity Engine (`haversine` at lines 45-52 and the `/nearby` handler
  `nearby_teams` at lines 195-221).

Python floats are modelled by real numbers.  Python's stable `list.sort(key=...)`
is modelled by `List.insertionSort` with the reflexive total relation
"key of the left element ≤ key of the right element": `List.insertionSort` is
stable (an element is inserted before the first element whose key is ≥ its own,
i.e. ties keep input order), and any two stable sorts by the same key agree.
-/

namespace FindRivals

/-- Embeds the dictionary `SPORT_PREFIX` of src/main.py (lines 25-31) together with
the `.get(sport, "TMP")` lookup of line 35: the fixed three-letter tag for a sport,
with fallback `"TMP"` for unrecognized sports. -/
def sportTag (sport : String) : String :=
  if sport = "cricket" then "CRK"
  else if sport = "football" then "FTB"
  else if sport = "kabaddi" then "KBD"
  else if sport = "shuttle" then "SHT"
  else if sport = "tennis" then "TNS"
  else "TMP"

/-- Embeds `generate_team_id` (src/main.py lines 34-42).  The storage count query
`db["team"].count_documents({"sport": sport})` is passed in as `countQuery`:
`.ok n` models a successful count returning `n`, `.error ()` models the query
raising (the `except Exception: count = 0` branch).  The result is the f-string
`f"{prefix}-{suffix}"` with `suffix = 100 + count`. -/
def generate_team_id (sport : String) (countQuery : Except Unit Nat) : String :=
  let tag := sportTag sport
  let count := match countQuery with
    | .ok n => n
    | .error _ => 0
  tag ++ "-" ++ toString (100 + count)

/-- Embeds Python's `math.radians`: degrees to radians, `x * (pi / 180)`. -/
noncomputable def radians (x : ℝ) : ℝ := x * (Real.pi / 180)

/-- Embeds `haversine` (src/main.py lines 45-52), with Python floats modelled by
real numbers: `R = 6371.0`, `a = sin(dlat/2)**2 + cos(radians(lat1)) *
cos(radians(lat2)) * sin(dlon/2)**2`, `c = 2 * asin(sqrt(a))`, result `R * c`. -/
noncomputable def haversine (lat1 lon1 lat2 lon2 : ℝ) : ℝ :=
  let R : ℝ := 6371
  let dlat := radians (lat2 - lat1)
  let dlon := radians (lon2 - lon1)
  let a := Real.sin (dlat / 2) ^ 2 +
    Real.cos (radians lat1) * Real.cos (radians lat2) * Real.sin (dlon / 2) ^ 2
  let c := 2 * Real.arcsin (Real.sqrt a)
  R * c

/-- Embeds the team documents of the `team` collection (schema `Team` in
src/schemas.py).  Python floats are real numbers; optional fields are `Option`. -/
structure Team where
  team_name : String
  sport : String
  players : List String
  location_name : Option String
  latitude : Option ℝ
  longitude : Option ℝ
  contact_preference : String
  contact_number : String
  availability : List String
  team_id : String

/-- An output item of the `/nearby` handler: the team document, possibly enriched
with the `distance_km` key added at src/main.py line 215. -/
structure RankedTeam where
  team : Team
  distance_km : Option ℝ

/-- Embeds Python's `round(x, 2)` over the real model: the nearest multiple of
1/100 (Mathlib's `round` on `x * 100`, divided by 100).  Python rounds ties on
the underlying floats to even; the claims under study never hit a tie, so the
tie-breaking convention is immaterial here. -/
noncomputable def round2 (x : ℝ) : ℝ := (round (x * 100) : ℤ) / 100

/-- Embeds the sort key `lambda x: x.get("distance_km", 0)` of src/main.py
line 220: the stored distance when present, and 0 for items without one. -/
def sortKey (o : RankedTeam) : ℝ := o.distance_km.getD 0

/-- The total preorder by which `result.sort(key=...)` orders the output. -/
def distLe (o p : RankedTeam) : Prop := sortKey o ≤ sortKey p

noncomputable instance : DecidableRel distLe :=
  fun o p => inferInstanceAs (Decidable (sortKey o ≤ sortKey p))

instance : IsTotal RankedTeam distLe := ⟨fun o p => le_total (sortKey o) (sortKey p)⟩

instance : IsTrans RankedTeam distLe := ⟨fun _ _ _ h h' => le_trans h h'⟩

instance : IsRefl RankedTeam distLe := ⟨fun o => le_refl (sortKey o)⟩

/-- Embeds the body of the `for t in teams` loop of `nearby_teams`
(src/main.py lines 205-218) for one team: if either center coordinate or either
team coordinate is missing, the team is appended without a distance; otherwise
the haversine distance is computed and the team is appended with the rounded
distance exactly when the distance is ≤ `range_km`, and dropped otherwise.
(The `except` branch of the source guards against float domain errors, which do
not arise in the real-number model: `Real.sqrt` and `Real.arcsin` are total.) -/
noncomputable def screenTeam (centerLat centerLon : Option ℝ) (rangeKm : ℝ)
    (t : Team) : Option RankedTeam :=
  match centerLat, centerLon, t.latitude, t.longitude with
  | some clat, some clon, some lat, some lon =>
    let dist := haversine clat clon lat lon
    if dist ≤ rangeKm then some ⟨t, some (round2 dist)⟩ else none
  | _, _, _, _ => some ⟨t, none⟩

/-- Embeds the `/nearby` handler `nearby_teams` (src/main.py lines 195-221) after
the storage read: the in-order filtering/annotation loop followed by
`result.sort(key=lambda x: x.get("distance_km", 0))` (a stable sort by the
stored rounded distance, defaulting to 0). -/
noncomputable def nearby_teams (centerLat centerLon : Option ℝ) (rangeKm : ℝ)
    (teams : List Team) : List RankedTeam :=
  List.insertionSort distLe (teams.filterMap (screenTeam centerLat centerLon rangeKm))

/-! ### Spec-described variants of the Proximity Engine (for refinement claims)

The following definitions are NOT translations of the source; they follow the
spec's words so that the source-derived `nearby_teams` can be compared against
them.  Both keep the source's per-item screening (inclusion depends on the
unrounded distance, which is also what the source's `if dist <= range_km` tests)
but carry the unrounded distance through the sort. -/

/-- Spec-described per-item screening that keeps the unrounded distance:
like `screenTeam`, but the surviving pair records the raw haversine distance
(rounding is applied only afterwards, "for display"). -/
noncomputable def screenPair (centerLat centerLon rangeKm : ℝ) (t : Team) :
    Option (Team × Option ℝ) :=
  match t.latitude, t.longitude with
  | some lat, some lon =>
    let dist := haversine centerLat centerLon lat lon
    if dist ≤ rangeKm then some (t, some dist) else none
  | _, _ => some (t, none)

/-- Sort key on unrounded pairs: the raw distance, 0 when absent. -/
def pairKey (p : Team × Option ℝ) : ℝ := p.2.getD 0

/-- Display step described by the spec: round the carried distance to 2 decimal
places for the reported result. -/
noncomputable def pairToRanked (p : Team × Option ℝ) : RankedTeam :=
  ⟨p.1, p.2.map round2⟩

/-- Follows the spec's words for claim comparison: "round the final reported
distance to 2 decimal places for display only (ranking uses unrounded values)" —
rank by the unrounded haversine distance (teams without a distance as 0), then
round only for display. -/
noncomputable def nearby_teams_specRanked (centerLat centerLon rangeKm : ℝ)
    (teams : List Team) : List RankedTeam :=
  (List.insertionSort (fun p q => pairKey p ≤ pairKey q)
      (teams.filterMap (screenPair centerLat centerLon rangeKm))).map pairToRanked

/-- The amended ranking description: rank by the ROUNDED distance (teams without
a distance as 0, ties kept in input order by stability), then report the rounded
distance. -/
noncomputable def nearby_teams_roundRanked (centerLat centerLon rangeKm : ℝ)
    (teams : List Team) : List RankedTeam :=
  (List.insertionSort (fun p q => round2 (pairKey p) ≤ round2 (pairKey q))
      (teams.filterMap (screenPair centerLat centerLon rangeKm))).map pairToRanked

/-! ### Discovery-endpoint boundary (radius parameter) -/

/-- Embeds the `range_km: float = Query(10, ge=1, le=100)` parameter declaration
of the `/nearby` endpoint (src/main.py line 200) with FastAPI's semantics for
`Query` constraints: an absent parameter takes the default 10; a supplied value
violating `ge=1`/`le=100` makes request validation fail (HTTP 422), modelled by
`.error ()`; an in-range value is passed through unchanged.  Query-parameter
values are modelled by rationals (decimal strings). -/
def parse_range_km (supplied : Option ℚ) : Except Unit ℚ :=
  match supplied with
  | none => .ok 10
  | some v => if 1 ≤ v ∧ v ≤ 100 then .ok v else .error ()

/-! ### Team registration -/

/-- Embeds the request body model `TeamCreate` of src/main.py (lines 95-104). -/
structure TeamCreate where
  team_name : String
  sport : String
  players : List String
  location_name : Option String
  latitude : Option ℝ
  longitude : Option ℝ
  contact_preference : String
  contact_number : String
  availability : List String

/-- The field values of the `Team(...)` document built by `register_team`
(src/main.py lines 116-127) from the payload and the freshly minted
identifier. -/
def teamRecord (payload : TeamCreate) (tid : String) : Team :=
  { team_name := payload.team_name
    sport := payload.sport
    players := payload.players
    location_name := payload.location_name
    latitude := payload.latitude
    longitude := payload.longitude
    contact_preference := payload.contact_preference
    contact_number := payload.contact_number
    availability := payload.availability
    team_id := tid }

/-- Embeds the pydantic validation run when `Team(...)` is constructed
(src/schemas.py): `sport` must be one of the five `Sport` literals,
`contact_preference` one of the two `ContactPref` literals, and every
`availability` entry one of the three `TimeSlot` literals.  The request model
`TeamCreate` types these fields as plain strings, so an invalid value reaches
the handler and is only caught here.  The remaining fields are unconstrained
(and already well-typed in the embedding). -/
def teamSchemaOk (payload : TeamCreate) : Bool :=
  (["cricket", "football", "kabaddi", "shuttle", "tennis"].contains payload.sport) &&
  (["call", "text"].contains payload.contact_preference) &&
  payload.availability.all (fun a => ["morning", "afternoon", "evening"].contains a)

/-- Embeds the `Team(...)` construction of src/main.py lines 116-127: pydantic
returns the document when the schema constraints hold and raises a
`ValidationError` (modelled by `.error ()`) otherwise. -/
def mkTeam (payload : TeamCreate) (tid : String) : Except Unit Team :=
  if teamSchemaOk payload then .ok (teamRecord payload tid) else .error ()

/-- Outcome of a registration request: HTTP 400 with a detail message (storage
unchanged); or an uncaught pydantic `ValidationError` from `Team(...)`
(HTTP 500, storage unchanged, nothing inserted); or success with the minted
identifier and the storage extended by the inserted document. -/
inductive RegOutcome where
  | badRequest (detail : String) (store : List Team)
  | validationError (store : List Team)
  | registered (team_id : String) (store : List Team)

/-- Discriminator for the success outcome. -/
def RegOutcome.isRegistered : RegOutcome → Bool
  | .registered _ _ => true
  | _ => false

/-- Embeds `register_team` (src/main.py lines 107-129).  The `team` collection is
the list `store`; `db["team"].find_one({"players": {"$in": payload.players}})`
returns a (truthy) document exactly when some stored team's `players` array
contains at least one payload player, which the embedding tests with `List.any`.
If `payload.players` is nonempty and such a document exists, the handler raises
HTTPException 400 before doing anything else; otherwise it mints the identifier
(`countQuery` models the allocator's count query as in `generate_team_id`) and
constructs `Team(...)`: if the pydantic validation passes the document is
inserted, and if it raises, the request aborts with nothing inserted. -/
def register_team (store : List Team) (countQuery : Except Unit Nat)
    (payload : TeamCreate) : RegOutcome :=
  if payload.players ≠ [] ∧
      store.any (fun st => st.players.any (fun p => payload.players.contains p)) then
    .badRequest "One or more players already belong to another team" store
  else
    let tid := generate_team_id payload.sport countQuery
    match mkTeam payload tid with
    | .ok team => .registered tid (store ++ [team])
    | .error _ => .validationError store

/-! ### Concrete sample documents used by witnesses and counterexamples -/

/-- A registered team at the equator/prime-meridian origin. -/
noncomputable def tA : Team :=
  { team_name := "A", sport := "cricket", players := ["alice"],
    location_name := some "origin", latitude := some 0, longitude := some 0,
    contact_preference := "call", contact_number := "1", availability := [],
    team_id := "CRK-100" }

/-- A registered team 1/100000 of a degree of longitude east of `tA`: about
1.11 meters away, a positive distance that rounds to 0.00 km. -/
noncomputable def tB : Team :=
  { team_name := "B", sport := "cricket", players := ["bob"],
    location_name := some "nextdoor", latitude := some 0,
    longitude := some (1 / 100000),
    contact_preference := "call", contact_number := "2", availability := [],
    team_id := "CRK-101" }

/-- A team with no recorded location. -/
noncomputable def tC : Team :=
  { team_name := "C", sport := "cricket", players := ["carol"],
    location_name := none, latitude := none, longitude := none,
    contact_preference := "text", contact_number := "3", availability := [],
    team_id := "CRK-102" }

/-- A registration payload sharing the player "alice" with `tA`; its sport,
contact preference and availability satisfy the schema. -/
def pX : TeamCreate :=
  { team_name := "X", sport := "cricket", players := ["alice", "dave"],
    location_name := none, latitude := none, longitude := none,
    contact_preference := "call", contact_number := "9", availability := [] }

/-- A registration payload with no players (hence no possible conflict) whose
sport "basketball" violates the `Sport` literal of the schema. -/
def pY : TeamCreate :=
  { team_name := "Y", sport := "basketball", players := [],
    location_name := none, latitude := none, longitude := none,
    contact_preference := "call", contact_number := "7", availability := [] }

/-! ### Helper lemmas -/

/-- Unfolding lemma for `haversine` with the lets resolved. -/
theorem haversine_unfold (lat1 lon1 lat2 lon2 : ℝ) :
    haversine lat1 lon1 lat2 lon2 =
      6371 * (2 * Real.arcsin (Real.sqrt
        (Real.sin (radians (lat2 - lat1) / 2) ^ 2 +
          Real.cos (radians lat1) * Real.cos (radians lat2) *
            Real.sin (radians (lon2 - lon1) / 2) ^ 2))) := rfl

/-- Squared sine of a half-angle is insensitive to the order of subtraction. -/
theorem sin_sq_radians_swap (x y : ℝ) :
    Real.sin (radians (x - y) / 2) ^ 2 = Real.sin (radians (y - x) / 2) ^ 2 := by
  have h : radians (x - y) / 2 = -(radians (y - x) / 2) := by
    unfold radians; ring
  rw [h, Real.sin_neg]
  ring

/-- The fallback tag for a sport outside the five known ones. -/
theorem sportTag_of_unknown (sport : String)
    (h : sport ∉ ["cricket", "football", "kabaddi", "shuttle", "tennis"]) :
    sportTag sport = "TMP" := by
  simp only [List.mem_cons, List.not_mem_nil, or_false, not_or] at h
  obtain ⟨h1, h2, h3, h4, h5⟩ := h
  simp [sportTag, h1, h2, h3, h4, h5]

/-! ### C3, C4 — Identifier Allocator -/

/-- C3: for every sport string and every count of existing teams for that sport,
the Identifier Allocator returns `"<prefix>-<100 + count>"`, where the prefix is
CRK for cricket, FTB for football, KBD for kabaddi, SHT for shuttle, TNS for
tennis, and TMP for any other sport value; in particular sport "cricket" with
existing count 29 yields "CRK-129" and sport "unknownsport" with count 0 yields
"TMP-100". -/
theorem C3_allocator_format (sport : String) (count : Nat)
    (h : sport ∉ ["cricket", "football", "kabaddi", "shuttle", "tennis"]) :
    (∀ n : Nat,
      generate_team_id "cricket" (.ok n) = "CRK-" ++ toString (100 + n) ∧
      generate_team_id "football" (.ok n) = "FTB-" ++ toString (100 + n) ∧
      generate_team_id "kabaddi" (.ok n) = "KBD-" ++ toString (100 + n) ∧
      generate_team_id "shuttle" (.ok n) = "SHT-" ++ toString (100 + n) ∧
      generate_team_id "tennis" (.ok n) = "TNS-" ++ toString (100 + n)) ∧
    generate_team_id sport (.ok count) = "TMP-" ++ toString (100 + count) ∧
    generate_team_id "cricket" (.ok 29) = "CRK-129" ∧
    generate_team_id "unknownsport" (.ok 0) = "TMP-100" := by
  refine ⟨fun n => ⟨rfl, rfl, rfl, rfl, rfl⟩, ?_, rfl, rfl⟩
  show sportTag sport ++ "-" ++ toString (100 + count) = "TMP-" ++ toString (100 + count)
  rw [sportTag_of_unknown sport h]
  rfl

/-- Witness for C3 at a concrete unknown sport. -/
theorem C3_allocator_format_witness :
    ("unknownsport" ∉ ["cricket", "football", "kabaddi", "shuttle", "tennis"]) ∧
    generate_team_id "unknownsport" (.ok 0) = "TMP-" ++ toString (100 + 0) :=
  ⟨by decide, (C3_allocator_format "unknownsport" 0 (by decide)).2.1⟩

/-- C4: if the storage count query fails, the Identifier Allocator does not
propagate the failure: it treats the count as zero and still returns an
identifier of the form `"<prefix>-100"` for every sport input (the same result
as a successful count of 0). -/
theorem C4_count_failure_absorbed (sport : String) :
    generate_team_id sport (.error ()) = sportTag sport ++ "-100" ∧
    generate_team_id sport (.error ()) = generate_team_id sport (.ok 0) := by
  constructor
  · show sportTag sport ++ "-" ++ toString (100 + 0) = sportTag sport ++ "-100"
    rw [String.append_assoc]
    rfl
  · rfl

/-! ### C5 — discovery-endpoint radius boundary -/

/-- C5 counterexample: a supplied radius of 200 is not clamped to 100 with the
request succeeding; request validation rejects it instead. -/
theorem C5_clamp_counterexample :
    parse_range_km (some 200) = Except.error () ∧
    parse_range_km (some 200) ≠ Except.ok (min 100 (max 1 (200 : ℚ))) := by
  have h : parse_range_km (some 200) = Except.error () := by
    norm_num [parse_range_km]
  exact ⟨h, by rw [h]; exact fun hc => Except.noConfusion hc⟩

/-- C5 (amended): the radius parameter defaults to 10 km; a supplied radius
inside [1, 100] is accepted unchanged, and a supplied radius outside [1, 100]
is rejected with a validation error (the request fails, no clamping). -/
theorem C5_radius_validation (v : ℚ) :
    parse_range_km none = .ok 10 ∧
    (1 ≤ v → v ≤ 100 → parse_range_km (some v) = .ok v) ∧
    ((v < 1 ∨ 100 < v) → parse_range_km (some v) = .error ()) := by
  refine ⟨rfl, fun h1 h2 => ?_, fun h => ?_⟩
  · simp [parse_range_km, h1, h2]
  · have hn : ¬(1 ≤ v ∧ v ≤ 100) := by
      rcases h with h | h
      · exact fun hc => absurd hc.1 (not_le.mpr h)
      · exact fun hc => absurd hc.2 (not_le.mpr h)
    simp [parse_range_km, hn]

/-- Witness for C5's amended statement at the in-range radius 50. -/
theorem C5_radius_validation_witness :
    (1 : ℚ) ≤ 50 ∧ (50 : ℚ) ≤ 100 ∧ parse_range_km (some 50) = Except.ok 50 :=
  ⟨by norm_num, by norm_num,
    (C5_radius_validation 50).2.1 (by norm_num) (by norm_num)⟩

/-! ### C8, C9 — haversine formula and symmetry -/

/-- C8: for every two points in decimal degrees, the haversine function returns
`2 * 6371.0 * asin(sqrt(a))` kilometers, where `a = sin(dlat/2)^2 +
cos(radians(lat1)) * cos(radians(lat2)) * sin(dlon/2)^2` with
`dlat = radians(lat2 - lat1)` and `dlon = radians(lon2 - lon1)`. -/
theorem C8_haversine_formula (lat1 lon1 lat2 lon2 : ℝ) :
    haversine lat1 lon1 lat2 lon2 =
      2 * 6371 * Real.arcsin (Real.sqrt
        (Real.sin (radians (lat2 - lat1) / 2) ^ 2 +
          Real.cos (radians lat1) * Real.cos (radians lat2) *
            Real.sin (radians (lon2 - lon1) / 2) ^ 2)) := by
  rw [haversine_unfold]
  ring

/-- C9: the haversine distance is symmetric in its two coordinate pairs. -/
theorem C9_haversine_symm (lat1 lon1 lat2 lon2 : ℝ) :
    haversine lat1 lon1 lat2 lon2 = haversine lat2 lon2 lat1 lon1 := by
  rw [haversine_unfold, haversine_unfold,
    sin_sq_radians_swap lat2 lat1, sin_sq_radians_swap lon2 lon1,
    mul_comm (Real.cos (radians lat1)) (Real.cos (radians lat2))]

/-! ### C10 — registration: player-uniqueness check and schema validation -/

/-- C10 counterexample: the payload `pY` has no players, so no player conflict
is possible, yet registration does not proceed to insert the team: the pydantic
`Team(...)` construction rejects sport "basketball" and the request aborts with
the storage unchanged and nothing registered. -/
theorem C10_schema_counterexample :
    pY.players = [] ∧
    register_team [] (.ok 0) pY = .validationError [] ∧
    (register_team [] (.ok 0) pY).isRegistered = false :=
  ⟨rfl, rfl, rfl⟩

/-- C10 (amended): registration rejects with a 400 error, inserting nothing,
exactly when the payload lists a nonempty set of players and at least one of
them already belongs to a stored team; otherwise it mints an identifier and
constructs the `Team(...)` document under the schema's validation: when the
payload's sport, contact preference and availability values satisfy the schema
literals the document is inserted, and when they do not, the pydantic
validation error aborts the request with nothing inserted. -/
theorem C10_registration_conflict (store : List Team) (countQuery : Except Unit Nat)
    (payload : TeamCreate) :
    (register_team store countQuery payload =
        .badRequest "One or more players already belong to another team" store ↔
      payload.players ≠ [] ∧ ∃ st ∈ store, ∃ p ∈ st.players, p ∈ payload.players) ∧
    (¬(payload.players ≠ [] ∧ ∃ st ∈ store, ∃ p ∈ st.players, p ∈ payload.players) →
      ((payload.sport ∈ ["cricket", "football", "kabaddi", "shuttle", "tennis"] ∧
          payload.contact_preference ∈ ["call", "text"] ∧
          ∀ a ∈ payload.availability, a ∈ ["morning", "afternoon", "evening"]) →
        register_team store countQuery payload =
          .registered (generate_team_id payload.sport countQuery)
            (store ++ [teamRecord payload (generate_team_id payload.sport countQuery)])) ∧
      (¬(payload.sport ∈ ["cricket", "football", "kabaddi", "shuttle", "tennis"] ∧
          payload.contact_preference ∈ ["call", "text"] ∧
          ∀ a ∈ payload.availability, a ∈ ["morning", "afternoon", "evening"]) →
        register_team store countQuery payload = .validationError store)) := by
  have hb : (store.any
        (fun st => st.players.any (fun p => payload.players.contains p)) = true) ↔
      ∃ st ∈ store, ∃ p ∈ st.players, p ∈ payload.players := by
    simp [List.any_eq_true]
  have hs : (teamSchemaOk payload = true) ↔
      (payload.sport ∈ ["cricket", "football", "kabaddi", "shuttle", "tennis"] ∧
        payload.contact_preference ∈ ["call", "text"] ∧
        ∀ a ∈ payload.availability, a ∈ ["morning", "afternoon", "evening"]) := by
    simp only [teamSchemaOk, Bool.and_eq_true, List.all_eq_true, List.elem_iff,
      List.mem_cons, List.not_mem_nil, or_false, and_assoc]
  constructor
  · constructor
    · intro h
      by_cases hc : payload.players ≠ [] ∧
          store.any (fun st => st.players.any (fun p => payload.players.contains p)) = true
      · exact ⟨hc.1, hb.mp hc.2⟩
      · exfalso
        rw [register_team, if_neg hc] at h
        by_cases hv : teamSchemaOk payload = true
        · simp [mkTeam, hv] at h
        · simp [mkTeam, hv] at h
    · intro ⟨h1, h2⟩
      rw [register_team, if_pos ⟨h1, hb.mpr h2⟩]
  · intro hn
    have hn' : ¬(payload.players ≠ [] ∧
        store.any (fun st => st.players.any (fun p => payload.players.contains p)) = true) :=
      fun hc => hn ⟨hc.1, hb.mp hc.2⟩
    constructor
    · intro hvp
      rw [register_team, if_neg hn']
      simp only [mkTeam, if_pos (hs.mpr hvp)]
    · intro hvn
      rw [register_team, if_neg hn']
      simp only [mkTeam, if_neg (fun hvt => hvn (hs.mp hvt))]

/-- Witness for C10: the payload `pX` sharing the player "alice" with the
stored team `tA` is rejected with the store unchanged, and against an empty
store the same schema-valid payload is registered and inserted. -/
theorem C10_registration_conflict_witness :
    ((pX.players ≠ [] ∧ ∃ st ∈ [tA], ∃ p ∈ st.players, p ∈ pX.players) ∧
      register_team [tA] (.ok 1) pX =
        .badRequest "One or more players already belong to another team" [tA]) ∧
    register_team [] (.ok 0) pX =
      .registered (generate_team_id pX.sport (.ok 0))
        ([] ++ [teamRecord pX (generate_team_id pX.sport (.ok 0))]) :=
  ⟨⟨⟨by decide, tA, List.mem_singleton.mpr rfl, "alice", by decide, by decide⟩,
    (C10_registration_conflict [tA] (.ok 1) pX).1.mpr
      ⟨by decide, tA, List.mem_singleton.mpr rfl, "alice", by decide, by decide⟩⟩,
    ((C10_registration_conflict [] (.ok 0) pX).2
        (by rintro ⟨-, st, hst, -⟩; exact List.not_mem_nil st hst)).1
      ⟨by decide, by decide, by decide⟩⟩

/-! ### Proximity Engine helper lemmas -/

/-- Each output item of the screening step carries the team it was produced
from. -/
theorem screenTeam_team (centerLat centerLon : Option ℝ) (rangeKm : ℝ) (t : Team)
    (o : RankedTeam) (h : screenTeam centerLat centerLon rangeKm t = some o) :
    o.team = t := by
  unfold screenTeam at h
  rcases centerLat with _ | clat <;> rcases centerLon with _ | clon <;>
    rcases hlat : t.latitude with _ | lat <;> rcases hlon : t.longitude with _ | lon <;>
    rw [hlat, hlon] at h <;>
    first
      | (injection h with h; exact congrArg RankedTeam.team h.symm)
      | (dsimp only at h
         split at h
         · injection h with h; exact congrArg RankedTeam.team h.symm
         · exact Option.noConfusion h)

/-- When either center coordinate is missing, screening keeps the team without
a distance. -/
theorem screenTeam_no_center (centerLat centerLon : Option ℝ) (rangeKm : ℝ)
    (t : Team) (h : centerLat = none ∨ centerLon = none) :
    screenTeam centerLat centerLon rangeKm t = some ⟨t, none⟩ := by
  unfold screenTeam
  rcases h with rfl | rfl
  · rfl
  · rcases centerLat with _ | clat
    · rfl
    · rfl

/-- With both center coordinates and a located team, screening reduces to the
distance test of src/main.py lines 213-216. -/
theorem screenTeam_located (clat clon rangeKm : ℝ) (t : Team) (lat lon : ℝ)
    (hlat : t.latitude = some lat) (hlon : t.longitude = some lon) :
    screenTeam (some clat) (some clon) rangeKm t =
      if haversine clat clon lat lon ≤ rangeKm
      then some ⟨t, some (round2 (haversine clat clon lat lon))⟩ else none := by
  unfold screenTeam
  rw [hlat, hlon]

/-- With a supplied center but a team lacking a coordinate, screening keeps the
team without a distance. -/
theorem screenTeam_missing (clat clon rangeKm : ℝ) (t : Team)
    (h : t.latitude = none ∨ t.longitude = none) :
    screenTeam (some clat) (some clon) rangeKm t = some ⟨t, none⟩ := by
  unfold screenTeam
  rcases h with h | h
  · rw [h]
  · rcases hlat : t.latitude with _ | lat <;> rw [h]

/-- Sorting does not change membership: an item is in the `/nearby` output iff
the screening loop produced it. -/
theorem mem_nearby_teams (centerLat centerLon : Option ℝ) (rangeKm : ℝ)
    (teams : List Team) (o : RankedTeam) :
    o ∈ nearby_teams centerLat centerLon rangeKm teams ↔
      o ∈ teams.filterMap (screenTeam centerLat centerLon rangeKm) :=
  (List.perm_insertionSort distLe _).mem_iff

/-! ### C2 — membership with a supplied center -/

/-- C2: when a query center is supplied, a team with both coordinates appears in
the result iff its haversine distance to the center is ≤ the radius, and then
only annotated with that distance rounded to 2 decimal places; a team with an
unknown location is always included, without a distance annotation. -/
theorem C2_center_membership (clat clon rangeKm : ℝ) (teams : List Team)
    (t : Team) (ht : t ∈ teams) :
    (∀ lat lon, t.latitude = some lat → t.longitude = some lon →
      (((∃ d, RankedTeam.mk t d ∈ nearby_teams (some clat) (some clon) rangeKm teams) ↔
          haversine clat clon lat lon ≤ rangeKm) ∧
        ∀ d, RankedTeam.mk t d ∈ nearby_teams (some clat) (some clon) rangeKm teams →
          d = some (round2 (haversine clat clon lat lon)))) ∧
    ((t.latitude = none ∨ t.longitude = none) →
      RankedTeam.mk t none ∈ nearby_teams (some clat) (some clon) rangeKm teams) := by
  constructor
  · intro lat lon hlat hlon
    have hsc := screenTeam_located clat clon rangeKm t lat lon hlat hlon
    constructor
    · constructor
      · rintro ⟨d, hd⟩
        rw [mem_nearby_teams, List.mem_filterMap] at hd
        obtain ⟨t', ht', hft⟩ := hd
        have htt : t = t' := screenTeam_team _ _ _ _ _ hft
        rw [← htt, hsc] at hft
        by_cases hle : haversine clat clon lat lon ≤ rangeKm
        · exact hle
        · rw [if_neg hle] at hft
          exact Option.noConfusion hft
      · intro hle
        refine ⟨some (round2 (haversine clat clon lat lon)), ?_⟩
        rw [mem_nearby_teams, List.mem_filterMap]
        exact ⟨t, ht, by rw [hsc, if_pos hle]⟩
    · intro d hd
      rw [mem_nearby_teams, List.mem_filterMap] at hd
      obtain ⟨t', ht', hft⟩ := hd
      have htt : t = t' := screenTeam_team _ _ _ _ _ hft
      rw [← htt, hsc] at hft
      by_cases hle : haversine clat clon lat lon ≤ rangeKm
      · rw [if_pos hle] at hft
        injection hft with hft
        have := congrArg RankedTeam.distance_km hft
        exact this.symm
      · rw [if_neg hle] at hft
        exact Option.noConfusion hft
  · intro hml
    rw [mem_nearby_teams, List.mem_filterMap]
    exact ⟨t, ht, screenTeam_missing clat clon rangeKm t hml⟩

/-- Witness for C2 on the location-less team `tC`. -/
theorem C2_center_membership_witness :
    (tC ∈ [tC]) ∧
    ((∀ lat lon, tC.latitude = some lat → tC.longitude = some lon →
      (((∃ d, RankedTeam.mk tC d ∈ nearby_teams (some 0) (some 0) 10 [tC]) ↔
          haversine 0 0 lat lon ≤ 10) ∧
        ∀ d, RankedTeam.mk tC d ∈ nearby_teams (some 0) (some 0) 10 [tC] →
          d = some (round2 (haversine 0 0 lat lon)))) ∧
    ((tC.latitude = none ∨ tC.longitude = none) →
      RankedTeam.mk tC none ∈ nearby_teams (some 0) (some 0) 10 [tC])) :=
  ⟨List.mem_singleton.mpr rfl,
    C2_center_membership 0 0 10 [tC] tC (List.mem_singleton.mpr rfl)⟩

/-- A list of distance-less items is sorted: all sort keys are 0. -/
theorem sorted_map_none (l : List Team) :
    List.Sorted distLe (l.map fun t => (⟨t, none⟩ : RankedTeam)) := by
  induction l with
  | nil => exact List.sorted_nil
  | cons a l ih =>
    rw [List.map_cons]
    refine List.sorted_cons.mpr ⟨?_, ih⟩
    intro b hb
    obtain ⟨x, _, hx⟩ := List.mem_map.mp hb
    rw [← hx]
    exact le_refl (0 : ℝ)

/-! ### C6 — absent center passes everything through in order -/

/-- C6: if either center coordinate is absent, every team is returned with no
distance annotation, the count is unchanged, and the output order equals the
input order. -/
theorem C6_no_center_passthrough (centerLat centerLon : Option ℝ) (rangeKm : ℝ)
    (teams : List Team) (h : centerLat = none ∨ centerLon = none) :
    nearby_teams centerLat centerLon rangeKm teams =
      teams.map (fun t => ⟨t, none⟩) ∧
    (nearby_teams centerLat centerLon rangeKm teams).length = teams.length := by
  have hfm : teams.filterMap (screenTeam centerLat centerLon rangeKm) =
      teams.map (fun t => ⟨t, none⟩) := by
    induction teams with
    | nil => rfl
    | cons a l ih =>
      rw [List.filterMap_cons, screenTeam_no_center centerLat centerLon rangeKm a h,
        List.map_cons, ih]
  have hsorted := sorted_map_none teams
  have h1 : nearby_teams centerLat centerLon rangeKm teams =
      teams.map (fun t => ⟨t, none⟩) := by
    unfold nearby_teams
    rw [hfm]
    exact hsorted.insertionSort_eq
  exact ⟨h1, by rw [h1, List.length_map]⟩

/-- Witness for C6 with a missing center latitude. -/
theorem C6_no_center_passthrough_witness :
    ((none : Option ℝ) = none ∨ (some (5 : ℝ) : Option ℝ) = none) ∧
    (nearby_teams none (some 5) 10 [tA] = [tA].map (fun t => ⟨t, none⟩) ∧
      (nearby_teams none (some 5) 10 [tA]).length = ([tA] : List Team).length) :=
  ⟨Or.inl rfl, C6_no_center_passthrough none (some 5) 10 [tA] (Or.inl rfl)⟩

/-! ### C7 — output ordering -/

/-- C7: the `/nearby` output is sorted ascending by the (stored) distance; a
team with no computed distance sorts with key 0 and therefore appears before
any team with a positive computed distance. -/
theorem C7_sorted_output (centerLat centerLon : Option ℝ) (rangeKm : ℝ)
    (teams : List Team) :
    List.Pairwise (fun o p => sortKey o ≤ sortKey p)
        (nearby_teams centerLat centerLon rangeKm teams) ∧
    (∀ o : RankedTeam, o.distance_km = none → sortKey o = 0) ∧
    List.Pairwise (fun o p => p.distance_km = none → sortKey o ≤ 0)
        (nearby_teams centerLat centerLon rangeKm teams) := by
  have hs : List.Sorted distLe (nearby_teams centerLat centerLon rangeKm teams) :=
    List.sorted_insertionSort distLe _
  refine ⟨hs, fun o h => by simp [sortKey, h], ?_⟩
  refine hs.imp ?_
  intro a b hab hnone
  have hb0 : sortKey b = 0 := by simp [sortKey, hnone]
  rw [← hb0]
  exact hab

/-- Witness for C7: the inner hypotheses discharged on the distance-less item
built from `tC`. -/
theorem C7_sorted_output_witness :
    RankedTeam.distance_km ⟨tC, none⟩ = none ∧ sortKey ⟨tC, none⟩ = 0 :=
  ⟨rfl, (C7_sorted_output none none 10 []).2.1 ⟨tC, none⟩ rfl⟩

/-! ### C1 — ranking uses the rounded, not the unrounded, distances -/

/-- Rounding zero gives zero. -/
theorem round2_zero : round2 0 = 0 := by
  simp [round2]

/-- The display step turns the unrounded pair key into the stored sort key. -/
theorem sortKey_pairToRanked (p : Team × Option ℝ) :
    sortKey (pairToRanked p) = round2 (pairKey p) := by
  rcases p with ⟨t, _ | d⟩
  · show (0 : ℝ) = round2 0
    rw [round2_zero]
  · rfl

/-- The source's screening is the spec-worded screening followed by the
display rounding. -/
theorem screenTeam_decompose (clat clon rangeKm : ℝ) (t : Team) :
    screenTeam (some clat) (some clon) rangeKm t =
      (screenPair clat clon rangeKm t).map pairToRanked := by
  unfold screenTeam screenPair
  rcases hlat : t.latitude with _ | lat <;> rcases hlon : t.longitude with _ | lon
  · rfl
  · rfl
  · rfl
  · dsimp only
    by_cases hle : haversine clat clon lat lon ≤ rangeKm
    · rw [if_pos hle, if_pos hle]
      rfl
    · rw [if_neg hle, if_neg hle]
      rfl

/-- C1 (amended): with a supplied center, the `/nearby` output equals the
spec-worded pipeline in which the ascending ranking is computed from the
ROUNDED distances (stably, so ties keep input order) and the rounded distance
is reported. -/
theorem C1_rounded_ranking (clat clon rangeKm : ℝ) (teams : List Team) :
    nearby_teams (some clat) (some clon) rangeKm teams =
      nearby_teams_roundRanked clat clon rangeKm teams := by
  unfold nearby_teams nearby_teams_roundRanked
  have hf : teams.filterMap (screenTeam (some clat) (some clon) rangeKm) =
      (teams.filterMap (screenPair clat clon rangeKm)).map pairToRanked := by
    rw [List.map_filterMap]
    congr 1
    funext t
    exact screenTeam_decompose clat clon rangeKm t
  rw [hf]
  exact (List.map_insertionSort
    (fun p q => round2 (pairKey p) ≤ round2 (pairKey q)) distLe pairToRanked
    (teams.filterMap (screenPair clat clon rangeKm))
    (fun a _ b _ => by rw [distLe, sortKey_pairToRanked, sortKey_pairToRanked])).symm

/-- On the equator, the haversine distance to a point `l` degrees east
(0 ≤ l ≤ 180) is exactly the arc length `6371 * radians l`. -/
theorem haversine_equator (l : ℝ) (h0 : 0 ≤ l) (h180 : l ≤ 180) :
    haversine 0 0 0 l = 6371 * radians l := by
  have hpi := Real.pi_pos
  have hx0 : 0 ≤ radians l / 2 := by
    unfold radians
    positivity
  have hx2 : radians l / 2 ≤ Real.pi / 2 := by
    unfold radians
    nlinarith
  rw [haversine_unfold]
  rw [show (0 : ℝ) - 0 = 0 by ring, show l - (0 : ℝ) = l by ring]
  rw [show radians 0 = 0 by unfold radians; ring]
  rw [Real.cos_zero, zero_div, Real.sin_zero]
  rw [show (0 : ℝ) ^ 2 + 1 * 1 * Real.sin (radians l / 2) ^ 2 =
      Real.sin (radians l / 2) ^ 2 by ring]
  rw [Real.sqrt_sq_eq_abs,
    abs_of_nonneg (Real.sin_nonneg_of_nonneg_of_le_pi hx0 (by linarith))]
  rw [Real.arcsin_sin (by linarith) hx2]
  ring

/-- The tiny equatorial distance used by the counterexample: positive, within
the 50 km radius, and rounding to 0.00. -/
theorem tiny_distance_facts :
    0 < 6371 * radians (1 / 100000) ∧
    6371 * radians (1 / 100000) ≤ 50 ∧
    round2 (6371 * radians (1 / 100000)) = 0 := by
  have hpi := Real.pi_pos
  have hpi' := Real.pi_lt_d2
  have hval : 6371 * radians (1 / 100000) = 6371 * Real.pi / 18000000 := by
    unfold radians
    ring
  refine ⟨by rw [hval]; positivity, by rw [hval]; nlinarith, ?_⟩
  rw [hval]
  unfold round2
  rw [show (6371 * Real.pi / 18000000 * 100) = 6371 * Real.pi / 180000 by ring]
  rw [round_eq_zero_iff.mpr (Set.mem_Ico.mpr ⟨by nlinarith, by nlinarith⟩)]
  norm_num

/-- Located-team reduction for the spec-worded screening. -/
theorem screenPair_located (clat clon rangeKm : ℝ) (t : Team) (lat lon : ℝ)
    (hlat : t.latitude = some lat) (hlon : t.longitude = some lon) :
    screenPair clat clon rangeKm t =
      if haversine clat clon lat lon ≤ rangeKm
      then some (t, some (haversine clat clon lat lon)) else none := by
  unfold screenPair
  rw [hlat, hlon]

/-- C1 counterexample: with center (0,0) and radius 50, the input [tB, tA]
(tB a positive ~1.1 m from the center, tA exactly at it) is returned by the
code in the order [tB, tA] — both rounded distances are 0.00 and the stable
sort keeps input order — whereas ranking by the unrounded haversine distances,
as the claim states, would put tA (distance 0) first. -/
theorem C1_unrounded_ranking_counterexample :
    nearby_teams (some 0) (some 0) 50 [tB, tA] ≠
      nearby_teams_specRanked 0 0 50 [tB, tA] := by
  have hA : haversine 0 0 0 0 = 0 := by
    rw [haversine_equator 0 le_rfl (by norm_num)]
    unfold radians
    ring
  have hB : haversine 0 0 0 (1 / 100000) = 6371 * radians (1 / 100000) :=
    haversine_equator _ (by norm_num) (by norm_num)
  obtain ⟨hpos, hle, hround⟩ := tiny_distance_facts
  have hsB : screenTeam (some 0) (some 0) 50 tB = some ⟨tB, some 0⟩ := by
    rw [screenTeam_located 0 0 50 tB 0 (1 / 100000) rfl rfl, hB, if_pos hle, hround]
  have hsA : screenTeam (some 0) (some 0) 50 tA = some ⟨tA, some 0⟩ := by
    rw [screenTeam_located 0 0 50 tA 0 0 rfl rfl, hA,
      if_pos (by norm_num : (0 : ℝ) ≤ 50), round2_zero]
  have hL : nearby_teams (some 0) (some 0) 50 [tB, tA] =
      [⟨tB, some 0⟩, ⟨tA, some 0⟩] := by
    unfold nearby_teams
    rw [List.filterMap_cons, hsB, List.filterMap_cons, hsA, List.filterMap_nil]
    have hBA : distLe (⟨tB, some 0⟩ : RankedTeam) ⟨tA, some 0⟩ := le_refl (0 : ℝ)
    simp only [List.insertionSort]
    rw [List.orderedInsert_nil, List.orderedInsert_of_le distLe [] hBA]
  have hpB : screenPair 0 0 50 tB = some (tB, some (6371 * radians (1 / 100000))) := by
    rw [screenPair_located 0 0 50 tB 0 (1 / 100000) rfl rfl, hB, if_pos hle]
  have hpA : screenPair 0 0 50 tA = some (tA, some 0) := by
    rw [screenPair_located 0 0 50 tA 0 0 rfl rfl, hA,
      if_pos (by norm_num : (0 : ℝ) ≤ 50)]
  have hR : nearby_teams_specRanked 0 0 50 [tB, tA] =
      [⟨tA, some 0⟩, ⟨tB, some 0⟩] := by
    unfold nearby_teams_specRanked
    rw [List.filterMap_cons, hpB, List.filterMap_cons, hpA, List.filterMap_nil]
    have hnot : ¬ pairKey (tB, some (6371 * radians (1 / 100000))) ≤
        pairKey (tA, some 0) := not_le.mpr hpos
    simp only [List.insertionSort]
    rw [List.orderedInsert_nil, List.orderedInsert, if_neg hnot, List.orderedInsert]
    have hround' : round2 (6371 * radians (100000 : ℝ)⁻¹) = 0 := by
      rw [show ((100000 : ℝ)⁻¹) = 1 / 100000 by norm_num]
      exact hround
    simp [pairToRanked, round2_zero, hround, hround']
  intro h
  rw [hL, hR] at h
  have h1 := congrArg (fun l : List RankedTeam => l.map fun o => o.team.team_name) h
  simp only [List.map_cons, List.map_nil] at h1
  simp only [tA, tB] at h1
  exact absurd h1 (by decide)

end FindRivals
